import Mathlib

/-!
Verification of the event-flow-server auth core (src/index.js).

The repository is a single Express service in two near-duplicate variants
sharing one file:
- variant A (lines 1-162): `verifyToken` JWT middleware, register/login,
  auth-gated POST /api/events with no body validation, GET my-events;
- variant B (lines 162-325): Google OAuth, register/login with a field
  check, ungated but field-validated POST /api/events, GET /api/events/:id.

The embedding below translates each handler into a pure Lean function over
explicit stores (lists of records) and explicit time.  The two external
cryptographic libraries the handlers call — jsonwebtoken and bcryptjs —
are not part of the repository; their observable behaviour is modelled
from the spec (sections 4.2 and 4.3) as executable keyed functions, since
the claims depend only on match/mismatch of signatures and hashes, never
on cryptographic strength.
-/

namespace EventFlow

/-- The identity carried inside a token: `jwt.sign({ id, email }, ...)`
at src/index.js line 113. -/
structure TokenPayload where
  id : Nat
  email : String
deriving DecidableEq, Repr

/-- A signed token: payload claims plus the embedded validity window and
the signature over all of them. -/
structure Token where
  id : Nat
  email : String
  iat : Nat
  exp : Nat
  sig : Nat
deriving DecidableEq, Repr

/-- `expiresIn: "7d"` (src/index.js line 113), in seconds. -/
def sevenDaysSec : Nat := 7 * 24 * 60 * 60

/-- Injective-enough numeric encoding of a string, used by the modelled
keyed functions below. -/
def encodeStr (s : String) : Nat :=
  s.data.foldl (fun a c => a * 1114112 + c.toNat + 1) 0

/-- Modelled from the spec: the symmetric signing function of the token
issuer (section 4.3, "signs the payload with a process-wide secret key").
The jsonwebtoken HMAC is not repository code; it is modelled as a concrete
executable keyed function of the secret and every signed claim.  The
claims proved below depend only on whether a signature matches this
function, not on unforgeability. -/
def mac (secret id : Nat) (email : String) (iat exp : Nat) : Nat :=
  1 + secret + 31 * id + 37 * encodeStr email + 41 * iat + 43 * exp

namespace Jwt

/-- `jwt.sign({ id, email }, JWT_SECRET, { expiresIn: "7d" })`
(src/index.js line 113): embeds the payload, issued-at, a seven-day
expiry, and the signature over all of them. -/
def sign (secret id : Nat) (email : String) (now : Nat) : Token :=
  { id := id
    email := email
    iat := now
    exp := now + sevenDaysSec
    sig := mac secret id email now (now + sevenDaysSec) }

/-- `jwt.verify(token, JWT_SECRET)` (src/index.js line 42): recomputes the
signature over the token claims and checks the expiry window; returns the
decoded identity on success and `none` (the middleware catch path) on
signature mismatch or expiry. -/
def verify (secret : Nat) (t : Token) (now : Nat) : Option TokenPayload :=
  if t.sig = mac secret t.id t.email t.iat t.exp ∧ now < t.exp then
    some { id := t.id, email := t.email }
  else none

end Jwt

/-- JS `String.prototype.startsWith`, modelled over the character list (the
built-in Lean `String.startsWith` does not reduce in the kernel). -/
def jsStartsWith (s p : String) : Bool :=
  List.isPrefixOf p.data s.data

/-- One splitting step of JS `String.prototype.split(sep)` over characters:
the separator never appears inside a chunk, and adjacent separators yield
empty chunks, as in JS. -/
def jsSplitChars (sep : Char) : List Char → List (List Char)
  | [] => [[]]
  | c :: cs =>
    if c = sep then [] :: jsSplitChars sep cs
    else
      match jsSplitChars sep cs with
      | [] => [[c]]
      | l :: ls => (c :: l) :: ls

/-- JS `s.split(" ")` (src/index.js line 40). -/
def jsSplitSpace (s : String) : List String :=
  (jsSplitChars ' ' s.data).map String.mk

/-- Outcome of the `verifyToken` middleware (src/index.js lines 34-48):
either a rejection response was sent and the pipeline halted, or the
downstream handler ran and produced `a`.  A `rejected` value carries no
handler output, so equality with `rejected` at every handler shows the
handler was never invoked. -/
inductive GateOutcome (α : Type) where
  | rejected (status : Nat) (message : String)
  | passed (a : α)
deriving DecidableEq, Repr

/-- Decoding of a token string back into a token, composed with
`Jwt.verify`: the middleware receives the token as a string and
`jwt.verify` both parses and checks it.  String parsing (base64/JSON) is
library code; it is kept as an explicit `decode` argument. -/
def checkToken (secret now : Nat) (decode : String → Option Token) (s : String) :
    Option TokenPayload :=
  match decode s with
  | some t => Jwt.verify secret t now
  | none => none

/-- `verifyToken` middleware (src/index.js lines 34-48): reject 401 when
the Authorization header is absent or does not start with "Bearer ";
otherwise take the substring after the first space, verify it, and on
success attach the decoded identity and invoke the next stage. -/
def verifyToken {α : Type} (check : String → Option TokenPayload)
    (authHeader : Option String) (next : TokenPayload → α) : GateOutcome α :=
  match authHeader with
  | none => .rejected 401 ("Unauthorized: No token provided")
  | some h =>
    if jsStartsWith h ("Bearer ") then
      match check ((jsSplitSpace h).getD 1 "") with
      | some u => .passed (next u)
      | none => .rejected 401 ("Invalid or expired token")
    else
      .rejected 401 ("Unauthorized: No token provided")

namespace Bcrypt

/-- Modelled from the spec (section 4.2): bcryptjs is not repository code.
A produced hash string embeds the per-call salt together with the digest
of salt and plaintext, so verification can recompute the digest from the
hash alone. -/
structure HashString where
  salt : Nat
  digest : Nat
deriving DecidableEq, Repr

/-- Modelled from the spec: the one-way digest of salt and plaintext, as a
concrete executable function.  The claims depend only on digest equality,
never on preimage resistance. -/
def digestOf (salt : Nat) (plaintext : String) : Nat :=
  1 + 2 * salt + 3 * encodeStr plaintext

/-- `bcrypt.hash(password, 10)` (src/index.js lines 90 and 246): the salt
is freshly random on every call; the model takes it as an explicit
parameter, so distinct calls are distinct salts. -/
def hash (salt : Nat) (plaintext : String) : HashString :=
  { salt := salt, digest := digestOf salt plaintext }

/-- `bcrypt.compare(password, storedHash)` (src/index.js lines 110 and
260): recomputes the digest using the salt embedded in the stored hash
and compares; returns false on mismatch, never an error. -/
def compare (plaintext : String) (h : HashString) : Bool :=
  digestOf h.salt plaintext == h.digest

end Bcrypt

/-- A persisted user record, as inserted by the register handler
(src/index.js lines 91-96): Mongo-assigned `_id`, name, email, bcrypt
hash under `password`, creation time. -/
structure UserRec where
  _id : Nat
  name : String
  email : String
  password : Bcrypt.HashString
  createdAt : Nat
deriving DecidableEq, Repr

/-- `users.findOne({ email })` (src/index.js lines 87 and 107): first
record in the collection whose email equals the queried one, if any. -/
def findOne (store : List UserRec) (email : String) : Option UserRec :=
  store.find? (fun u => u.email == email)

/-- The JSON body of a register request; each field may be absent.  JS
treats an absent field and an empty string alike (both falsy under
`!name`). -/
structure RegisterBody where
  name : Option String
  email : Option String
  password : Option String
deriving DecidableEq, Repr

/-- Truthiness of a request string field: present and non-empty
(`!name || !email || !password` at src/index.js line 85). -/
def present (v : Option String) : Bool :=
  match v with
  | none => false
  | some s => !s.data.isEmpty

/-- The JSON answer of the register and login handlers.  `userId` is only
set by successful registration, `token` only by successful login; an
absent key is `none`. -/
structure AuthResponse where
  status : Nat
  message : String
  userId : Option Nat := none
  token : Option Token := none
deriving DecidableEq, Repr

/-- POST /api/register (src/index.js lines 82-102): reject 400 when a
field is missing or empty; reject 400 when the email already has a
record; otherwise hash the password and insert a new record, answering
201 with the store-assigned id.  `salt` is the fresh bcrypt salt,
`nextId` the id Mongo assigns to the insert, `now` the clock. -/
def register (salt nextId now : Nat) (store : List UserRec) (body : RegisterBody) :
    AuthResponse × List UserRec :=
  if !present body.name || !present body.email || !present body.password then
    ({ status := 400, message := "All fields required" }, store)
  else
    let e := body.email.getD ""
    match findOne store e with
    | some _ => ({ status := 400, message := "User already exists" }, store)
    | none =>
      let hashed := Bcrypt.hash salt (body.password.getD "")
      let newUser : UserRec :=
        { _id := nextId, name := body.name.getD "", email := e,
          password := hashed, createdAt := now }
      ({ status := 201, message := "User registered", userId := some nextId },
       store ++ [newUser])

/-- The JSON body of a login request (src/index.js line 106). -/
structure LoginBody where
  email : String
  password : String
deriving DecidableEq, Repr

/-- POST /api/login (src/index.js lines 104-118): look the email up,
400 "User not found" on a miss; compare the password against the stored
hash, 400 "Invalid password" on mismatch; otherwise sign a seven-day
token over the record's id and email and answer 200 with it. -/
def login (secret now : Nat) (store : List UserRec) (body : LoginBody) :
    AuthResponse :=
  match findOne store body.email with
  | none => { status := 400, message := "User not found" }
  | some user =>
    if Bcrypt.compare body.password user.password then
      { status := 200, message := "Login successful",
        token := some (Jwt.sign secret user._id user.email now) }
    else
      { status := 400, message := "Invalid password" }

/-- The JSON body of a POST /api/events request.  Variant A destructures
title, description, date, location and image (src/index.js line 146);
variant B destructures title, description, date and location (line 270).
A `creatorEmail` field the client may try to supply is carried here to
show the handlers never read it. -/
structure EventBody where
  title : Option String
  description : Option String
  date : Option String
  location : Option String
  image : Option String
  creatorEmail : Option String
deriving DecidableEq, Repr

/-- An event document as built by the variant A handler (src/index.js
lines 148-156): the destructured body fields, the creator email taken
from the verified token identity, and the creation time.  `date` keeps
the raw request value (`new Date(date)` is a pure recoding the claims
never inspect). -/
structure EventRec where
  _id : Nat
  title : Option String
  description : Option String
  date : Option String
  location : Option String
  image : Option String
  creatorEmail : String
  createdAt : Nat
deriving DecidableEq, Repr

/-- The JSON answer of the variant A event-creation handler
(src/index.js line 159). -/
structure EventResponse where
  status : Nat
  message : String
  event : Option EventRec := none
deriving DecidableEq, Repr

/-- The downstream part of POST /api/events in variant A (src/index.js
lines 145-160), run only after the gate authorizes `user`: build the new
document with `creatorEmail := user.email`, insert it with the
store-assigned id, answer 201 with it.  No body field is validated. -/
def createEventA (user : TokenPayload) (body : EventBody) (nextId now : Nat)
    (events : List EventRec) : EventResponse × List EventRec :=
  let newEvent : EventRec :=
    { _id := nextId, title := body.title, description := body.description,
      date := body.date, location := body.location, image := body.image,
      creatorEmail := user.email, createdAt := now }
  ({ status := 201, message := "Created", event := some newEvent },
   events ++ [newEvent])

/-- The full POST /api/events route of variant A: the `verifyToken` gate
in front of the creation handler (src/index.js line 145). -/
def postEventsA (check : String → Option TokenPayload) (authHeader : Option String)
    (body : EventBody) (nextId now : Nat) (events : List EventRec) :
    GateOutcome (EventResponse × List EventRec) :=
  verifyToken check authHeader (fun user => createEventA user body nextId now events)

/-- The status code an outcome of the variant A route answers with. -/
def statusOfA (o : GateOutcome (EventResponse × List EventRec)) : Nat :=
  match o with
  | .rejected s _ => s
  | .passed (r, _) => r.status

/-- An event document as built by the variant B handler (src/index.js
lines 276-283): no creator at all, `description` defaulted to the empty
string, an `updatedAt` stamp.  Mongo ids are modelled as their 24-digit
hex strings because the GET-by-id route parses its path parameter with
`new ObjectId(id)`. -/
structure EventRecB where
  _id : String
  title : String
  description : String
  date : Option String
  location : String
  createdAt : Nat
  updatedAt : Nat
deriving DecidableEq, Repr

/-- The JSON answer of the variant B event-creation handler: its `event`
field is the raw `insertOne` result, which carries the inserted id
(src/index.js line 285). -/
structure EventResponseB where
  status : Nat
  message : String
  insertedId : Option String := none
deriving DecidableEq, Repr

/-- POST /api/events in variant B (src/index.js lines 268-289): no auth
gate at all; reject 400 when title, date or location is missing or empty;
otherwise insert the document (`description || ""`) and answer 201. -/
def postEventsB (body : EventBody) (nextId : String) (now : Nat)
    (events : List EventRecB) : EventResponseB × List EventRecB :=
  if !present body.title || !present body.date || !present body.location then
    ({ status := 400, message := "Title, date, and location are required." },
     events)
  else
    let newEvent : EventRecB :=
      { _id := nextId, title := body.title.getD "",
        description := body.description.getD "",
        date := body.date, location := body.location.getD "",
        createdAt := now, updatedAt := now }
    ({ status := 201, message := "Event created successfully!",
       insertedId := some nextId },
     events ++ [newEvent])

/-- Hexadecimal digit, as accepted by the Mongo ObjectId constructor. -/
def isHexDigit (c : Char) : Bool :=
  (('0' ≤ c) && (c ≤ '9')) || (('a' ≤ c) && (c ≤ 'f')) || (('A' ≤ c) && (c ≤ 'F'))

/-- `new ObjectId(id)` (src/index.js line 305) accepts exactly a 24-digit
hex string and throws otherwise, which the route's catch turns into a
500. -/
def isValidObjectId (s : String) : Bool :=
  (s.data.length == 24) && s.data.all isHexDigit

/-- The JSON answer of GET /api/events/:id: the found document alone on
200, or a message. -/
structure FetchEventResponse where
  status : Nat
  message : Option String := none
  event : Option EventRecB := none
deriving DecidableEq, Repr

/-- GET /api/events/:id (src/index.js lines 302-311): parse the path
parameter as an ObjectId (throwing into the catch, a 500, when it is not
one), look the document up, answer 200 with it or 404 on a miss. -/
def getEventById (events : List EventRecB) (id : String) : FetchEventResponse :=
  if isValidObjectId id then
    match events.find? (fun e => e._id == id) with
    | some ev => { status := 200, event := some ev }
    | none => { status := 404, message := some ("Event not found") }
  else
    { status := 500, message := some ("Error fetching event") }

/-- Observable outcome of process startup: either the process stays alive
and its HTTP layer serves requests — `storeReady` records whether the
store connection had been established first — or the process exited with
a code. -/
inductive StartupOutcome where
  | serving (storeReady : Bool)
  | exited (code : Nat)
deriving DecidableEq, Repr

/-- `startServer` in variant A (src/index.js lines 62-76): connect first,
call `app.listen` only after the connection succeeds, and
`process.exit(1)` when it fails. -/
def startServer (connectOk : Bool) : StartupOutcome :=
  if connectOk then .serving true else .exited 1

/-- `run` plus the exported request handler in variant B (src/index.js
lines 183-324): a connection failure is caught and merely logged, `run`
resolves normally, and the exported handler awaits `initPromise` and then
forwards every request to the app regardless — with no routes registered,
since registration happens after the failed `connect`. -/
def runAndServe (connectOk : Bool) : StartupOutcome :=
  if connectOk then .serving true else .serving false

end EventFlow

namespace EventFlow

/-- If some record in the store carries the email, `findOne` returns a
record (the first such one). -/
theorem findOne_isSome_of_mem (store : List UserRec) (e : String) (u : UserRec)
    (hu : u ∈ store) (he : u.email = e) : (findOne store e).isSome := by
  have hx : ∃ v ∈ store, (fun w : UserRec => w.email == e) v = true :=
    ⟨u, hu, by simp [he]⟩
  simpa [findOne, List.find?_isSome] using hx

/-- If no record in the store carries the email, `findOne` misses. -/
theorem findOne_eq_none_of_not_mem (store : List UserRec) (e : String)
    (h : ∀ u ∈ store, u.email ≠ e) : findOne store e = none := by
  apply List.find?_eq_none.mpr
  intro u hu
  simp [h u hu]

/-- A string has empty character data exactly when it is the empty
string. -/
theorem string_data_nil_iff (s : String) : s.data = [] ↔ s = "" :=
  ⟨fun h => String.ext h, fun h => by subst h; rfl⟩

/-- A present field is truthy exactly when it is non-empty. -/
theorem present_some_true_iff (s : String) : present (some s) = true ↔ s ≠ "" := by
  simp [present, List.isEmpty_iff, string_data_nil_iff]

/-- C1: Token round-trip.  Verifying immediately after `sign` returns
exactly the signed `{id, email}`; a token whose signature segment is
tampered with (any signature different from the issued one) verifies to
`none`; and once the expiry window has elapsed the original token, whose
signature is still the valid one, also verifies to `none`. -/
theorem token_round_trip_tamper_expiry (secret id now : Nat) (email : String)
    (s : Nat) (hs : s ≠ (Jwt.sign secret id email now).sig)
    (later : Nat) (hl : (Jwt.sign secret id email now).exp ≤ later) :
    Jwt.verify secret (Jwt.sign secret id email now) now
        = some { id := id, email := email }
      ∧ Jwt.verify secret { Jwt.sign secret id email now with sig := s } now = none
      ∧ Jwt.verify secret (Jwt.sign secret id email now) later = none := by
  refine ⟨?_, ?_, ?_⟩
  · simp [Jwt.sign, Jwt.verify, sevenDaysSec]
  · simp only [Jwt.sign, Jwt.verify] at hs ⊢
    simp [hs]
  · simp only [Jwt.sign, Jwt.verify] at hl ⊢
    simp [Nat.not_lt.mpr hl]

/-- Witness for C1 at concrete inputs: secret 5, id 2, email "a@x.com",
issued at time 100, tampered signature one more than the real one,
checked again at the exact expiry instant. -/
theorem token_round_trip_tamper_expiry_witness :
    Jwt.verify 5 (Jwt.sign 5 2 ("a@x.com") 100) 100
        = some { id := 2, email := "a@x.com" }
      ∧ Jwt.verify 5 { Jwt.sign 5 2 ("a@x.com") 100 with
          sig := (Jwt.sign 5 2 ("a@x.com") 100).sig + 1 } 100 = none
      ∧ Jwt.verify 5 (Jwt.sign 5 2 ("a@x.com") 100) (100 + sevenDaysSec) = none :=
  token_round_trip_tamper_expiry 5 2 100 ("a@x.com")
    ((Jwt.sign 5 2 ("a@x.com") 100).sig + 1) (by simp)
    (100 + sevenDaysSec) (by simp [Jwt.sign])

/-- C2: Auth Gate rejection.  When the Authorization header is absent, or
present but not starting with "Bearer ", the middleware answers 401
"Unauthorized: No token provided", and the result is the same for every
downstream handler — the handler is never invoked. -/
theorem gate_rejects_absent_or_malformed_header {α : Type}
    (check : String → Option TokenPayload) (authHeader : Option String)
    (next : TokenPayload → α)
    (h : authHeader = none
      ∨ ∃ s, authHeader = some s ∧ jsStartsWith s ("Bearer ") = false) :
    verifyToken check authHeader next
        = .rejected 401 ("Unauthorized: No token provided")
      ∧ ∀ g : TokenPayload → α,
          verifyToken check authHeader next = verifyToken check authHeader g := by
  rcases h with h | ⟨s, hs, hpre⟩
  · subst h
    exact ⟨rfl, fun g => rfl⟩
  · subst hs
    constructor
    · simp [verifyToken, hpre]
    · intro g
      simp [verifyToken, hpre]

/-- Witness for C2 at concrete inputs: a missing header and a header
reading "Token abc", against a check that would accept anything. -/
theorem gate_rejects_absent_or_malformed_header_witness :
    (verifyToken (α := Nat) (fun _ => some { id := 7, email := "e" }) none
        (fun _ => 0) = .rejected 401 ("Unauthorized: No token provided"))
      ∧ (verifyToken (α := Nat) (fun _ => some { id := 7, email := "e" })
        (some ("Token abc")) (fun _ => 0)
        = .rejected 401 ("Unauthorized: No token provided")) :=
  ⟨(gate_rejects_absent_or_malformed_header _ none _ (Or.inl rfl)).1,
   (gate_rejects_absent_or_malformed_header _ (some ("Token abc")) _
     (Or.inr ⟨"Token abc", rfl, by decide⟩)).1⟩

/-- C3: Duplicate registration rejection.  When some record of the store
already carries the email of a well-formed register call, the call
answers 400 "User already exists" and the store is returned unchanged —
no record is inserted — whatever name and password the second call
supplies. -/
theorem register_duplicate_rejected (salt nextId now : Nat) (store : List UserRec)
    (u : UserRec) (body : RegisterBody) (hu : u ∈ store)
    (he : body.email = some u.email) (hne : u.email ≠ "")
    (hn : present body.name = true) (hp : present body.password = true) :
    register salt nextId now store body
      = ({ status := 400, message := "User already exists" }, store) := by
  have hpe : present body.email = true := by
    rw [he]
    exact (present_some_true_iff _).mpr hne
  have hfind : (findOne store (body.email.getD "")).isSome := by
    rw [he]
    simpa using findOne_isSome_of_mem store u.email u hu rfl
  obtain ⟨v, hv⟩ := Option.isSome_iff_exists.mp hfind
  unfold register
  rw [hn, hp, hpe]
  simp [hv]

/-- Witness for C3: the store already holds a record for "a@x.com"; a
second registration with the same email but different name and password
is rejected with 400 and the store is unchanged. -/
theorem register_duplicate_rejected_witness :
    register 7 2 50
        [{ _id := 1, name := "A", email := "a@x.com",
           password := Bcrypt.hash 3 ("p1"), createdAt := 0 }]
        { name := some ("B"), email := some ("a@x.com"), password := some ("p2") }
      = ({ status := 400, message := "User already exists" },
         [{ _id := 1, name := "A", email := "a@x.com",
            password := Bcrypt.hash 3 ("p1"), createdAt := 0 }]) :=
  register_duplicate_rejected 7 2 50 _
    { _id := 1, name := "A", email := "a@x.com",
      password := Bcrypt.hash 3 ("p1"), createdAt := 0 } _
    (by decide) rfl (by decide) (by decide) (by decide)

/-- C4: Registration does not auto-login.  A well-formed registration of
a fresh email answers 201 carrying the store-assigned identifier, inserts
exactly the new record, and carries no token; moreover the register
handler returns no token on any path whatsoever. -/
theorem register_success_no_token (salt nextId now : Nat) (store : List UserRec)
    (body : RegisterBody)
    (hn : present body.name = true) (he : present body.email = true)
    (hp : present body.password = true)
    (hmiss : findOne store (body.email.getD "") = none) :
    (register salt nextId now store body).1.status = 201
      ∧ (register salt nextId now store body).1.userId = some nextId
      ∧ (register salt nextId now store body).2
          = store ++ [{ _id := nextId,
                        name := body.name.getD "",
                        email := body.email.getD "",
                        password := Bcrypt.hash salt (body.password.getD ""),
                        createdAt := now }]
      ∧ ∀ (s2 i2 n2 : Nat) (st2 : List UserRec) (b2 : RegisterBody),
          (register s2 i2 n2 st2 b2).1.token = none := by
  refine ⟨?_, ?_, ?_, ?_⟩
  · unfold register
    rw [hn, hp, he]
    simp [hmiss]
  · unfold register
    rw [hn, hp, he]
    simp [hmiss]
  · unfold register
    rw [hn, hp, he]
    simp [hmiss]
  · intro s2 i2 n2 st2 b2
    unfold register
    split
    · rfl
    · cases h2 : findOne st2 (b2.email.getD "") <;> simp [h2]

/-- Witness for C4: registering "a@x.com" against the empty store yields
201 with userId 2, the single inserted record, and no token anywhere. -/
theorem register_success_no_token_witness :
    (register 7 2 50 []
        { name := some ("A"), email := some ("a@x.com"),
          password := some ("p1") }).1.status = 201
      ∧ (register 7 2 50 []
          { name := some ("A"), email := some ("a@x.com"),
            password := some ("p1") }).1.userId = some 2
      ∧ (register 7 2 50 []
          { name := some ("A"), email := some ("a@x.com"),
            password := some ("p1") }).2
        = [] ++ [{ _id := 2, name := "A", email := "a@x.com",
                   password := Bcrypt.hash 7 ("p1"), createdAt := 50 }]
      ∧ ∀ (s2 i2 n2 : Nat) (st2 : List UserRec) (b2 : RegisterBody),
          (register s2 i2 n2 st2 b2).1.token = none :=
  register_success_no_token 7 2 50 []
    { name := some ("A"), email := some ("a@x.com"), password := some ("p1") }
    (by decide) (by decide) (by decide) (by decide)

/-- C5: Login failure semantics.  A login whose email no stored record
carries answers exactly 400 "User not found"; a login that finds a record
but whose password fails the bcrypt comparison answers exactly 400
"Invalid password"; both answers carry no token (the `token` field of the
answer defaults to `none`). -/
theorem login_failure_semantics (secret now : Nat) (store : List UserRec)
    (body : LoginBody) :
    ((∀ u ∈ store, u.email ≠ body.email) →
        login secret now store body
          = { status := 400, message := "User not found" })
      ∧ (∀ u, findOne store body.email = some u →
          Bcrypt.compare body.password u.password = false →
          login secret now store body
            = { status := 400, message := "Invalid password" }) := by
  constructor
  · intro habs
    unfold login
    rw [findOne_eq_none_of_not_mem store body.email habs]
  · intro u hfind hcmp
    simp [login, hfind, hcmp]

/-- Witness for C5: against a store holding only "a@x.com" (password
"p1" hashed with salt 3), logging in as "b@x.com" answers "User not
found" and logging in as "a@x.com" with "wrong" answers "Invalid
password"; both without a token. -/
theorem login_failure_semantics_witness :
    login 1 0
        [{ _id := 1, name := "A", email := "a@x.com",
           password := Bcrypt.hash 3 ("p1"), createdAt := 0 }]
        { email := "b@x.com", password := "p1" }
      = { status := 400, message := "User not found" }
    ∧ login 1 0
        [{ _id := 1, name := "A", email := "a@x.com",
           password := Bcrypt.hash 3 ("p1"), createdAt := 0 }]
        { email := "a@x.com", password := "wrong" }
      = { status := 400, message := "Invalid password" } :=
  ⟨(login_failure_semantics 1 0 _ _).1 (by decide),
   (login_failure_semantics 1 0 _ _).2
     { _id := 1, name := "A", email := "a@x.com",
       password := Bcrypt.hash 3 ("p1"), createdAt := 0 }
     (by decide) (by decide)⟩

/-- C6: Password hash round-trip and salt non-determinism.  Two hashes of
the same plaintext under the distinct salts of two calls are different
hash strings, yet the bcrypt comparison accepts the plaintext against
each of them. -/
theorem hash_nondeterminism_verify_correct (plaintext : String) (s1 s2 : Nat)
    (hne : s1 ≠ s2) :
    Bcrypt.hash s1 plaintext ≠ Bcrypt.hash s2 plaintext
      ∧ Bcrypt.compare plaintext (Bcrypt.hash s1 plaintext) = true
      ∧ Bcrypt.compare plaintext (Bcrypt.hash s2 plaintext) = true := by
  refine ⟨?_, ?_, ?_⟩
  · intro h
    exact hne (congrArg Bcrypt.HashString.salt h)
  · simp [Bcrypt.compare, Bcrypt.hash]
  · simp [Bcrypt.compare, Bcrypt.hash]

/-- Witness for C6 at plaintext "p1" and the distinct salts 3 and 4. -/
theorem hash_nondeterminism_verify_correct_witness :
    Bcrypt.hash 3 ("p1") ≠ Bcrypt.hash 4 ("p1")
      ∧ Bcrypt.compare ("p1") (Bcrypt.hash 3 ("p1")) = true
      ∧ Bcrypt.compare ("p1") (Bcrypt.hash 4 ("p1")) = true :=
  hash_nondeterminism_verify_correct ("p1") 3 4 (by decide)

/-- Counterexample to C7 as stated.  The claim requires a request with a
valid token but a body missing the required fields to yield 400; in the
auth-gated handler (variant A) such a request — valid Bearer token,
every body field absent — is answered 201, because the handler validates
nothing.  (The other handler, variant B, does validate fields but has no
auth gate at all, so the claim holds in neither variant.) -/
theorem post_events_contract_counterexample :
    statusOfA (postEventsA
        (checkToken 5 100
          (fun s => if s == "tok" then some (Jwt.sign 5 2 ("a@x.com") 100)
                    else none))
        (some ("Bearer tok"))
        { title := none, description := none, date := none, location := none,
          image := none, creatorEmail := none }
        9 100 []) = 201 := by
  decide

/-- C7 amended: the route exists in two variants with complementary
halves of the claimed contract.  The auth-gated variant A answers 401
when the Authorization header is absent, malformed, or carries a token
that fails verification, and answers 201 for every body once the token
verifies — it performs no field validation.  The ungated variant B
answers 400 when title, date or location is missing and 201 when they are
present, for every client — it requires no token. -/
theorem post_events_contract_amended
    (check : String → Option TokenPayload) (body : EventBody)
    (nextId now : Nat) (events : List EventRec)
    (idB : String) (nowB : Nat) (eventsB : List EventRecB) :
    (postEventsA check none body nextId now events
        = .rejected 401 ("Unauthorized: No token provided"))
      ∧ (∀ h, jsStartsWith h ("Bearer ") = false →
          postEventsA check (some h) body nextId now events
            = .rejected 401 ("Unauthorized: No token provided"))
      ∧ (∀ h, jsStartsWith h ("Bearer ") = true →
          check ((jsSplitSpace h).getD 1 "") = none →
          postEventsA check (some h) body nextId now events
            = .rejected 401 ("Invalid or expired token"))
      ∧ (∀ h u, jsStartsWith h ("Bearer ") = true →
          check ((jsSplitSpace h).getD 1 "") = some u →
          statusOfA (postEventsA check (some h) body nextId now events) = 201)
      ∧ (present body.title = false ∨ present body.date = false
            ∨ present body.location = false →
          postEventsB body idB nowB eventsB
            = ({ status := 400,
                 message := "Title, date, and location are required." },
               eventsB))
      ∧ (present body.title = true → present body.date = true →
          present body.location = true →
          (postEventsB body idB nowB eventsB).1.status = 201) := by
  refine ⟨rfl, ?_, ?_, ?_, ?_, ?_⟩
  · intro h hpre
    simp [postEventsA, verifyToken, hpre]
  · intro h hpre hchk
    simp at hchk
    simp [postEventsA, verifyToken, hpre, hchk]
  · intro h u hpre hchk
    simp at hchk
    simp [postEventsA, verifyToken, hpre, hchk, statusOfA, createEventA]
  · intro hmiss
    rcases hmiss with hm | hm | hm <;> simp [postEventsB, hm]
  · intro h1 h2 h3
    simp [postEventsB, h1, h2, h3]

/-- Witness for the amended C7 at concrete inputs: variant A answers 201
to a valid token with an entirely empty body and 401 to a missing header;
variant B answers 201 to a complete body with no token anywhere and 400
to an empty body. -/
theorem post_events_contract_amended_witness :
    statusOfA (postEventsA
        (checkToken 6 100
          (fun s => if s == "w7" then some (Jwt.sign 6 3 ("b@x.com") 100)
                    else none))
        (some ("Bearer w7"))
        { title := none, description := none, date := none, location := none,
          image := none, creatorEmail := none }
        4 100 []) = 201
      ∧ postEventsA
          (checkToken 6 100
            (fun s => if s == "w7" then some (Jwt.sign 6 3 ("b@x.com") 100)
                      else none))
          none
          { title := none, description := none, date := none, location := none,
            image := none, creatorEmail := none }
          4 100 []
        = .rejected 401 ("Unauthorized: No token provided")
      ∧ (postEventsB
          { title := some ("T"), description := none, date := some ("2025-01-01"),
            location := some ("L"), image := none, creatorEmail := none }
          ("aaaaaaaaaaaaaaaaaaaaaaaa") 0 []).1.status = 201
      ∧ postEventsB
          { title := none, description := none, date := none, location := none,
            image := none, creatorEmail := none }
          ("aaaaaaaaaaaaaaaaaaaaaaaa") 0 []
        = ({ status := 400,
             message := "Title, date, and location are required." }, []) :=
  ⟨(post_events_contract_amended
      (checkToken 6 100
        (fun s => if s == "w7" then some (Jwt.sign 6 3 ("b@x.com") 100)
                  else none))
      { title := none, description := none, date := none, location := none,
        image := none, creatorEmail := none }
      4 100 [] ("aaaaaaaaaaaaaaaaaaaaaaaa") 0 []).2.2.2.1
      ("Bearer w7") { id := 3, email := "b@x.com" } (by decide) (by decide),
   (post_events_contract_amended
      (checkToken 6 100
        (fun s => if s == "w7" then some (Jwt.sign 6 3 ("b@x.com") 100)
                  else none))
      { title := none, description := none, date := none, location := none,
        image := none, creatorEmail := none }
      4 100 [] ("aaaaaaaaaaaaaaaaaaaaaaaa") 0 []).1,
   (post_events_contract_amended (fun _ => none)
      { title := some ("T"), description := none, date := some ("2025-01-01"),
        location := some ("L"), image := none, creatorEmail := none }
      4 100 [] ("aaaaaaaaaaaaaaaaaaaaaaaa") 0 []).2.2.2.2.2
      (by decide) (by decide) (by decide),
   (post_events_contract_amended (fun _ => none)
      { title := none, description := none, date := none, location := none,
        image := none, creatorEmail := none }
      4 100 [] ("aaaaaaaaaaaaaaaaaaaaaaaa") 0 []).2.2.2.2.1
      (Or.inl (by decide))⟩

/-- C8: Event lookup by id.  Over a well-formed store — every stored id
is a valid ObjectId hex string — a GET whose id matches a stored document
answers 200 with that document, and a GET whose id parses as an ObjectId
but matches nothing answers 404 "Event not found". -/
theorem get_event_by_id_found_or_404 (events : List EventRecB) (id : String)
    (hwf : ∀ e ∈ events, isValidObjectId e._id = true) :
    (∀ ev, events.find? (fun e => e._id == id) = some ev →
        getEventById events id = { status := 200, event := some ev })
      ∧ (isValidObjectId id = true →
          events.find? (fun e => e._id == id) = none →
          getEventById events id
            = { status := 404, message := some ("Event not found") }) := by
  constructor
  · intro ev hfind
    have hmem : ev ∈ events := List.mem_of_find?_eq_some hfind
    have hpred := List.find?_some hfind
    have hid : ev._id = id := by simpa using hpred
    have hvalid : isValidObjectId id = true := hid ▸ hwf ev hmem
    simp [getEventById, hvalid, hfind]
  · intro hvalid hmiss
    simp [getEventById, hvalid, hmiss]

/-- Witness for C8: a one-document store; looking its id up answers 200
with the document, and looking a fresh valid ObjectId up answers 404. -/
theorem get_event_by_id_found_or_404_witness :
    getEventById
        [{ _id := "0123456789abcdef01234567", title := "T", description := "",
           date := some ("2025-01-01"), location := "L", createdAt := 0,
           updatedAt := 0 }]
        ("0123456789abcdef01234567")
      = { status := 200,
          event := some { _id := "0123456789abcdef01234567", title := "T",
                          description := "", date := some ("2025-01-01"),
                          location := "L", createdAt := 0, updatedAt := 0 } }
    ∧ getEventById
        [{ _id := "0123456789abcdef01234567", title := "T", description := "",
           date := some ("2025-01-01"), location := "L", createdAt := 0,
           updatedAt := 0 }]
        ("0123456789abcdef01234568")
      = { status := 404, message := some ("Event not found") } :=
  ⟨(get_event_by_id_found_or_404 _ ("0123456789abcdef01234567")
      (by decide)).1 _ (by decide),
   (get_event_by_id_found_or_404 _ ("0123456789abcdef01234568")
      (by decide)).2 (by decide) (by decide)⟩

/-- Counterexample to C9 as stated.  The claim requires the process to
terminate when the initial store connection fails; in variant B the
failure is caught and logged, `run` resolves, and the exported handler
keeps serving — the startup outcome is a live process serving with the
store never connected, not an exit. -/
theorem startup_failure_counterexample :
    runAndServe false = StartupOutcome.serving false := rfl

/-- C9 amended: variant A behaves as claimed — a failed initial
connection exits the process with code 1, and the server is serving only
when the connection succeeded; variant B does not — it never exits
whatever the connection outcome, and on failure it still serves, with
the store never established. -/
theorem startup_failure_amended (connectOk : Bool) (code : Nat) :
    startServer false = StartupOutcome.exited 1
      ∧ startServer true = StartupOutcome.serving true
      ∧ (startServer connectOk = StartupOutcome.serving true → connectOk = true)
      ∧ runAndServe connectOk ≠ StartupOutcome.exited code
      ∧ runAndServe false = StartupOutcome.serving false := by
  refine ⟨rfl, rfl, ?_, ?_, rfl⟩
  · cases connectOk
    · intro hserve
      simp [startServer] at hserve
    · intro _
      rfl
  · cases connectOk <;> simp [runAndServe]

/-- Witness for the amended C9 at concrete inputs: a failed connection
exits variant A with code 1, while variant B stays alive serving without
the store, and a successful connection leaves variant A serving. -/
theorem startup_failure_amended_witness :
    startServer false = StartupOutcome.exited 1
      ∧ runAndServe false = StartupOutcome.serving false
      ∧ runAndServe false ≠ StartupOutcome.exited 1
      ∧ (true : Bool) = true :=
  ⟨(startup_failure_amended false 1).1,
   (startup_failure_amended false 1).2.2.2.2,
   (startup_failure_amended false 1).2.2.2.1,
   (startup_failure_amended true 1).2.2.1 rfl⟩

/-- C10: ownership comes from the verified token.  Once the gate has
authorized identity `u`, the variant A creation route stores and returns
an event whose `creatorEmail` is exactly `u.email`; and the route's
entire outcome is unchanged under any `creatorEmail` the client smuggles
into the body — the handler never reads it. -/
theorem creator_email_from_token
    (check : String → Option TokenPayload) (h : String) (u : TokenPayload)
    (body : EventBody) (nextId now : Nat) (events : List EventRec)
    (hpre : jsStartsWith h ("Bearer ") = true)
    (hcheck : check ((jsSplitSpace h).getD 1 "") = some u) :
    (∀ spoofed : Option String,
        postEventsA check (some h) { body with creatorEmail := spoofed }
            nextId now events
          = postEventsA check (some h) body nextId now events)
      ∧ postEventsA check (some h) body nextId now events
          = .passed
              ({ status := 201, message := "Created",
                 event := some { _id := nextId, title := body.title,
                                 description := body.description,
                                 date := body.date, location := body.location,
                                 image := body.image, creatorEmail := u.email,
                                 createdAt := now } },
               events ++ [{ _id := nextId, title := body.title,
                            description := body.description, date := body.date,
                            location := body.location, image := body.image,
                            creatorEmail := u.email, createdAt := now }]) := by
  simp at hcheck
  constructor
  · intro spoofed
    simp [postEventsA, verifyToken, hpre, hcheck, createEventA]
  · simp [postEventsA, verifyToken, hpre, hcheck, createEventA]

/-- Witness for C10: a valid token for "a@x.com" and a body that tries to
set creatorEmail to "evil@x.com"; the stored and returned event carries
"a@x.com". -/
theorem creator_email_from_token_witness :
    postEventsA
        (checkToken 5 100
          (fun s => if s == "tk" then some (Jwt.sign 5 2 ("a@x.com") 100)
                    else none))
        (some ("Bearer tk"))
        { title := some ("T"), description := none, date := none,
          location := none, image := none, creatorEmail := some ("evil@x.com") }
        9 100 []
      = .passed
          ({ status := 201, message := "Created",
             event := some { _id := 9, title := some ("T"), description := none,
                             date := none, location := none, image := none,
                             creatorEmail := "a@x.com", createdAt := 100 } },
           [] ++ [{ _id := 9, title := some ("T"), description := none,
                    date := none, location := none, image := none,
                    creatorEmail := "a@x.com", createdAt := 100 }]) :=
  (creator_email_from_token
    (checkToken 5 100
      (fun s => if s == "tk" then some (Jwt.sign 5 2 ("a@x.com") 100)
                else none))
    ("Bearer tk") { id := 2, email := "a@x.com" }
    { title := some ("T"), description := none, date := none,
      location := none, image := none, creatorEmail := some ("evil@x.com") }
    9 100 [] (by decide) (by decide)).2

end EventFlow
